import Mathlib

/-!
Verification of the job-execution supervisor of the pdf_to_doc repository
(`app.py`, `conversion_worker.py`) against its natural-language specification.

The embedding models, faithfully to the Python source:
* the JSON status object written to the per-task status file, as an
  association list with Python `dict` lookup/update semantics;
* the worker's `update_status` / `read_status` / `calculate_eta` functions
  and the worker's terminal failure handler (`conversion_worker.py`);
* the supervisor's `monitor_conversion_process` (poll loop tick, final
  resolution after process exit, resource cleanup), `get_status`,
  `cancel_task`, and the launch phase of `convert_pdf` (`app.py`).

Statuses are the literal strings used by the source: "converting",
"completed", "error", "cancelled".
-/

/-- A JSON value as stored in a status-file field. The source only stores
strings, integers and `null` in the fields the supervisor inspects. -/
inductive JVal where
  | jstr (s : String)
  | jint (n : Int)
  | jnull
deriving DecidableEq, Repr

/-- A JSON object, as a key-ordered association list (Python `dict` keeps
insertion order and has unique keys). -/
abbrev StatusObj := List (String × JVal)

/-- Lookup of a field in a status object (first occurrence, as in a dict). -/
def lookupField : StatusObj → String → Option JVal
  | [], _ => none
  | (k', v) :: rest, k => if k' = k then some v else lookupField rest k

/-- `obj[k] = v` on a Python dict: replace the value at `k` if the key is
present, otherwise append the new binding at the end. -/
def setField : StatusObj → String → JVal → StatusObj
  | [], k, v => [(k, v)]
  | (k', v') :: rest, k, v =>
      if k' = k then (k, v) :: rest else (k', v') :: setField rest k v

/-- Python `dict.update(data)`: set every binding of `data` in turn. -/
def dictUpdate (obj data : StatusObj) : StatusObj :=
  data.foldl (fun acc kv => setField acc kv.1 kv.2) obj

theorem lookupField_setField_self (obj : StatusObj) (k : String) (v : JVal) :
    lookupField (setField obj k v) k = some v := by
  induction obj with
  | nil => simp [setField, lookupField]
  | cons hd tl ih =>
      by_cases h : hd.1 = k
      · simp [setField, lookupField, h]
      · simp [setField, lookupField, h, ih]

theorem lookupField_setField_ne (obj : StatusObj) (k k' : String) (v : JVal)
    (h : k' ≠ k) : lookupField (setField obj k' v) k = lookupField obj k := by
  induction obj with
  | nil => simp [setField, lookupField, h]
  | cons hd tl ih =>
      by_cases h2 : hd.1 = k'
      · simp [setField, lookupField, h2, h]
      · simp [setField, lookupField, h2, ih]

theorem lookupField_dictUpdate_not_mem (obj data : StatusObj) (k : String)
    (h : k ∉ data.map Prod.fst) :
    lookupField (dictUpdate obj data) k = lookupField obj k := by
  induction data generalizing obj with
  | nil => rfl
  | cons hd tl ih =>
      simp only [List.map_cons, List.mem_cons, not_or] at h
      simpa [dictUpdate] using
        (ih (setField obj hd.1 hd.2) h.2).trans
          (lookupField_setField_ne obj k hd.1 hd.2 (Ne.symm h.1))

/-! ## The worker's status-file primitives (`conversion_worker.py`) -/

/-- `read_status` (conversion_worker.py:230-236): parse the status file;
`none` models the `except` path (missing or unparseable file). The channel
state itself is `Option StatusObj`, `none` standing for an unreadable file. -/
def read_status (file : Option StatusObj) : Option StatusObj := file

/-- `update_status` (conversion_worker.py:215-228): read the existing status
(falling back to the empty dict), `dict.update` it with the new data, and
write the merged object back. -/
def update_status (file : Option StatusObj) (data : StatusObj) : Option StatusObj :=
  some (dictUpdate ((read_status file).getD []) data)

/-- `calculate_eta` uses rationals where Python uses floats; Python's
`int(x)` truncates toward zero. -/
def ratTruncToInt (q : ℚ) : Int := q.num.tdiv q.den

/-- `calculate_eta` (conversion_worker.py:238-247): returns `""` when
`current_page <= 0`; otherwise divides the elapsed time by `current_page`
and scales by the remaining pages. -/
def calculate_eta (elapsed : ℚ) (current_page total_pages : Int) : String :=
  if current_page ≤ 0 then ""
  else
    let avg_time_per_page := elapsed / (current_page : ℚ)
    let remaining_pages := total_pages - current_page
    let eta_seconds := avg_time_per_page * (remaining_pages : ℚ)
    "预计剩余时间: " ++ toString (ratTruncToInt eta_seconds) ++ "秒"

/-! ## The worker's terminal failure path (`conversion_worker.py:198-213`) -/

/-- The exceptions that can reach the outer handler of
`convert_pdf_to_docx`. An exception raised inside the conversion block —
including the `Exception("Task was cancelled by user")` raised by the
progress callback on seeing a cancelled status — is caught by the generic
`except Exception` (conversion_worker.py:175-177) and re-raised wrapped as
`"PDF conversion failed: ..."`; the fallback-compat path re-raises as
`"PDF conversion failed due to compatibility issue: ..."`; a missing output
file raises `"Output file was not created"`. -/
inductive WorkerException where
  | conversionFailed (inner : String)
  | compatibilityFailed (inner : String)
  | outputMissing
deriving DecidableEq, Repr

/-- The `str(e)` of each exception as built by the source's f-strings. -/
def exceptionMessage : WorkerException → String
  | .conversionFailed s => "PDF conversion failed: " ++ s
  | .compatibilityFailed s => "PDF conversion failed due to compatibility issue: " ++ s
  | .outputMissing => "Output file was not created"

/-- The exception reaching the outer handler when the progress callback
detects a cancelled status and raises (conversion_worker.py:100-105 wrapped
by conversion_worker.py:175-177). -/
def cancellationException : WorkerException :=
  .conversionFailed "Task was cancelled by user"

/-- Worker-side view of the world: the status channel plus the two
artifacts the worker may delete on failure. -/
structure WorkerFsState where
  statusFile : Option StatusObj
  pdfExists : Bool
  outputExists : Bool
deriving DecidableEq, Repr

/-- The fields written by the worker's outer `except` handler
(conversion_worker.py:199-204). -/
def workerErrorFields (e : WorkerException) : StatusObj :=
  [("status", .jstr "error"),
   ("message", .jstr ("Conversion failed: " ++ exceptionMessage e)),
   ("step", .jstr "error"),
   ("error", .jstr (exceptionMessage e))]

/-- The worker's terminal failure path (conversion_worker.py:198-213):
merge the error fields into the status file, then remove the input PDF and
any partial output artifact. -/
def workerFailureHandler (st : WorkerFsState) (e : WorkerException) : WorkerFsState :=
  { statusFile := update_status st.statusFile (workerErrorFields e),
    pdfExists := false,
    outputExists := false }

/-! ## The supervisor (`app.py`), viewed per task id

The three module-level dicts `conversion_status`, `conversion_processes`
and `frontend_heartbeat` are modelled for one fixed task id: the registry
entry (`none` = id absent), whether a process-handle entry exists, and
whether a heartbeat entry exists, together with the backing status file. -/

/-- Per-task supervisor state: the `conversion_status[task_id]` entry, the
presence of the `conversion_processes[task_id]` and
`frontend_heartbeat[task_id]` entries, and the status file (existence on
disk, and its parsed content when it parses). -/
structure SupervisorState where
  conversion_status : Option StatusObj
  conversion_processes : Bool
  frontend_heartbeat : Bool
  statusFileExists : Bool
  statusFileContent : Option StatusObj
deriving DecidableEq, Repr

/-- Outcome of one attempt to open and `json.load` the status file. Reads
race worker writes, so a read may fail (raise) even transiently; a
successful read yields the parsed object. -/
inductive FileRead where
  | failure
  | success (obj : StatusObj)
deriving DecidableEq, Repr

/-- One tick of the monitor's poll loop while the process is alive
(app.py:60-70): on a successful read, replace the registry entry with the
parsed status; on a raised read (`except: pass`), leave it unchanged and
fall through to the sleep before the next tick. -/
def monitor_poll_tick (registry : Option StatusObj) (read : FileRead) : Option StatusObj :=
  match read with
  | .success obj => some obj
  | .failure => registry

/-- The synthetic error record the monitor writes when the final read fails
and the process exited non-zero (app.py:79-85). -/
def processExitErrorObj (returncode : Int) : StatusObj :=
  [("status", .jstr "error"),
   ("message", .jstr ("Process exited with code " ++ toString returncode)),
   ("step", .jstr "error"),
   ("error", .jstr ("Process exited with code " ++ toString returncode))]

/-- Final resolution after the process exits (app.py:72-85): read the file
once more; on success mirror it into the registry whatever it says; on a
failed read, synthesize an error record only when `returncode != 0`,
otherwise leave the registry entry as it was. -/
def monitorFinalResolve (registry : Option StatusObj) (read : FileRead)
    (returncode : Int) : Option StatusObj :=
  match read with
  | .success obj => some obj
  | .failure =>
      if returncode ≠ 0 then some (processExitErrorObj returncode) else registry

/-- Everything `monitor_conversion_process` does once `process.poll()` is
no longer `None` (app.py:72-95): the final resolution above, then deletion
of the `conversion_processes` entry and removal of the status file.
`frontend_heartbeat` is not touched by this function. -/
def monitorProcessExit (st : SupervisorState) (read : FileRead)
    (returncode : Int) : SupervisorState :=
  { st with
    conversion_status := monitorFinalResolve st.conversion_status read returncode,
    conversion_processes := false,
    statusFileExists := false }

/-- `get_status` (app.py:489-508), returning the updated registry entry and
the HTTP response body (`none` = 404 Task not found). When a process entry
exists it merges a successfully read file status into the cached entry via
`dict.update`; a failed read (`except: pass`) keeps the cached entry. -/
def get_status (registry : Option StatusObj) (inProcesses : Bool)
    (read : FileRead) : Option StatusObj × Option StatusObj :=
  match registry with
  | none => (none, none)
  | some reg =>
      if inProcesses then
        match read with
        | .success obj =>
            let merged := dictUpdate reg obj
            (some merged, some merged)
        | .failure => (some reg, some reg)
      else (some reg, some reg)

/-! ## Cancellation (`cancel_task`, app.py:566-619) -/

/-- The externally visible steps of `cancel_task`, in program order:
the registry write marking the task cancelled, the best-effort rewrite of
the status file with the cancellation intent, `time.sleep(1)`,
`process.terminate()`, `time.sleep(2)`, `process.kill()`, and the deletion
of the `conversion_processes` entry. -/
inductive CancelAction where
  | markCancelled
  | writeIntent
  | waitGrace1
  | terminate
  | waitGrace2
  | kill
  | releaseHandle
deriving DecidableEq, Repr

/-- The cancellation-intent record `cancel_task` writes to the status file
(app.py:589-594). The file is opened with mode `w`, so this is a full
overwrite, not a merge. -/
def cancelIntentObj : StatusObj :=
  [("status", .jstr "cancelled"),
   ("message", .jstr "Task cancelled by user"),
   ("step", .jstr "cancelled")]

/-- HTTP result of `cancel_task`: 404 Task not found, or the JSON body
`{status: ...}` it returns. -/
inductive CancelResponse where
  | notFound
  | ok (status : String)
deriving DecidableEq, Repr

/-- Result of a `cancel_task` call: the new supervisor state, the ordered
signal/wait trace, and the HTTP response. -/
structure CancelResult where
  state : SupervisorState
  actions : List CancelAction
  response : CancelResponse
deriving DecidableEq, Repr

/-- `cancel_task` (app.py:566-619). Parameters supply the outcomes of the
non-deterministic environment: whether the best-effort intent write
succeeds, and the two `process.poll() is None` checks (after the first
grace period, and after `terminate` plus the second grace period).
Faithful to the source: there is no terminal-status check — any task with a
registry entry has its status, message and step overwritten to cancelled;
the heartbeat entry is deleted; if a process entry exists the escalation
runs and the handle entry is deleted; the response is always
`{status: cancelled}` for a known task. -/
def cancel_task (st : SupervisorState) (writeOk alive1 alive2 : Bool) : CancelResult :=
  match st.conversion_status with
  | none => { state := st, actions := [], response := .notFound }
  | some reg =>
      let reg2 :=
        setField (setField (setField reg "status" (.jstr "cancelled"))
          "message" (.jstr "Task cancelled by user")) "step" (.jstr "cancelled")
      let st1 := { st with conversion_status := some reg2, frontend_heartbeat := false }
      if st1.conversion_processes then
        let fileContent2 := if writeOk then some cancelIntentObj else st1.statusFileContent
        let fileExists2 := if writeOk then true else st1.statusFileExists
        let escalation :=
          if alive1 then
            [CancelAction.terminate, CancelAction.waitGrace2] ++
              (if alive2 then [CancelAction.kill] else [])
          else []
        { state := { st1 with
            statusFileContent := fileContent2,
            statusFileExists := fileExists2,
            conversion_processes := false },
          actions := [CancelAction.markCancelled, CancelAction.writeIntent,
            CancelAction.waitGrace1] ++ escalation ++ [CancelAction.releaseHandle],
          response := .ok "cancelled" }
      else
        { state := st1,
          actions := [CancelAction.markCancelled],
          response := .ok "cancelled" }

/-! ## Submission launch phase (`convert_pdf`, app.py:431-475) -/

/-- Outcome of `subprocess.Popen` for the worker: either a started process
or a raised exception with message `msg`. -/
inductive SpawnResult where
  | ok (pid : Nat)
  | fail (msg : String)
deriving DecidableEq, Repr

/-- The part of the `/api/convert` response relevant to launch failures. -/
inductive SubmitResponse where
  | started (task_id : String)
  | launchError (errorBody : String)
deriving DecidableEq, Repr

/-- What the launch phase of `convert_pdf` produced: the response and HTTP
code, and whether the process-handle entry was stored and the monitor
thread started. `convert_pdf` itself never writes `conversion_status`. -/
structure SubmitOutcome where
  response : SubmitResponse
  httpCode : Nat
  processStored : Bool
  monitorStarted : Bool
deriving DecidableEq, Repr

/-- The launch phase of `convert_pdf` (app.py:431-475): on a successful
spawn, store the handle, start the monitor thread and return 200 with the
task id; if `Popen` raises, return 500 with
`Failed to start conversion: ...` immediately — the handle is never stored
and no monitor is started. -/
def convert_pdf_launch (task_id : String) (spawn : SpawnResult) : SubmitOutcome :=
  match spawn with
  | .ok _ =>
      { response := .started task_id, httpCode := 200,
        processStored := true, monitorStarted := true }
  | .fail msg =>
      { response := .launchError ("Failed to start conversion: " ++ msg),
        httpCode := 500, processStored := false, monitorStarted := false }

/-! ## A concrete cancellation/worker/monitor interleaving

Used for claim C1: the user cancels, the worker's progress callback
observes the cancelled status file and raises, the worker's outer handler
writes its error record over the file, the worker exits (exit code 0,
since `convert_pdf_to_docx` swallows the exception), and the monitor's
final read mirrors the file into the registry. -/

/-- The interleaving: `cancel_task` (intent write succeeds; the worker
exits during the first grace period, so both liveness polls report dead),
then the worker failure handler fired by the cancellation exception, then
the monitor's process-exit handling with a successful final read of what
the worker wrote, exit code 0. -/
def cancelThenWorkerErrorTrace (s0 : SupervisorState) : SupervisorState :=
  let r := cancel_task s0 true false false
  let s1 := r.state
  let file2 := (workerFailureHandler
    ⟨s1.statusFileContent, true, true⟩ cancellationException).statusFile
  let read : FileRead :=
    match file2 with
    | some obj => .success obj
    | none => .failure
  monitorProcessExit { s1 with statusFileContent := file2 } read 0

/-! ## Sample states used by concrete counterexamples and witnesses -/

/-- The initial status object written when a conversion is submitted
(app.py:436-443). -/
def convertingObj : StatusObj :=
  [("status", .jstr "converting"), ("progress", .jint 0),
   ("message", .jstr "Starting conversion..."),
   ("step", .jstr "initialization"), ("error", .jnull)]

/-- A registry entry for a successfully completed job
(conversion_worker.py:188-194). -/
def completedObj : StatusObj :=
  [("status", .jstr "completed"), ("progress", .jint 100),
   ("message", .jstr "Conversion completed successfully!"),
   ("step", .jstr "completed"), ("output_file", .jstr "out.docx")]

/-- A freshly submitted, running job: registry mirrors the initial status,
the handle and heartbeat entries exist, the status file is on disk. -/
def sampleRunningState : SupervisorState :=
  { conversion_status := some convertingObj,
    conversion_processes := true,
    frontend_heartbeat := true,
    statusFileExists := true,
    statusFileContent := some convertingObj }

/-- A job already resolved to Completed, after monitor cleanup. -/
def sampleCompletedState : SupervisorState :=
  { conversion_status := some completedObj,
    conversion_processes := false,
    frontend_heartbeat := false,
    statusFileExists := false,
    statusFileContent := none }

/-- Shared helper: the status field of the registry entry written by
`cancel_task` for a known task is `"cancelled"`. -/
theorem cancel_task_registry_status (st : SupervisorState) (reg : StatusObj)
    (w a1 a2 : Bool) (h1 : st.conversion_status = some reg) :
    lookupField (((cancel_task st w a1 a2).state.conversion_status).getD []) "status" =
      some (.jstr "cancelled") := by
  have hreg : ∀ r : StatusObj,
      lookupField (setField (setField (setField r "status" (.jstr "cancelled"))
        "message" (.jstr "Task cancelled by user")) "step" (.jstr "cancelled")) "status" =
        some (.jstr "cancelled") := by
    intro r
    rw [lookupField_setField_ne _ _ _ _ (by decide),
      lookupField_setField_ne _ _ _ _ (by decide),
      lookupField_setField_self]
  cases st with
  | mk cs cp hb fe fc =>
      cases cs with
      | none => cases h1
      | some r =>
          cases h1
          cases cp <;> simp [cancel_task, hreg]

/-! ## Claim theorems -/

/-- C1, counterexample: starting from a running job, `cancel_task` sets the
registry status to "cancelled", but in the interleaving where the Worker's
progress callback then detects the cancellation and its error path writes
to the Status Channel, the Monitor's final mirror leaves the registry
status "error" — a Cancelled status is replaced by Error, contradicting the
claim. -/
theorem C1_cancelled_demoted_counterexample :
    lookupField (((cancel_task sampleRunningState true false false).state.conversion_status).getD [])
      "status" = some (.jstr "cancelled")
    ∧ lookupField ((cancelThenWorkerErrorTrace sampleRunningState).conversion_status.getD [])
      "status" = some (.jstr "error")
    ∧ lookupField ((cancelThenWorkerErrorTrace sampleRunningState).conversion_status.getD [])
      "error" = some (.jstr "PDF conversion failed: Task was cancelled by user") := by
  refine ⟨?_, ?_, ?_⟩ <;> decide

/-- C1, amended: once `cancel_task` has marked a known job with a live
process entry Cancelled, the Worker's error-path write after detecting
cancellation in its progress callback replaces the channel's Cancelled
status with Error (the cancellation exception re-wrapped as
"PDF conversion failed: Task was cancelled by user"), and the Monitor's
final read mirrors that Error into the registry, replacing Cancelled. -/
theorem C1_worker_error_write_demotes_cancelled (s0 : SupervisorState) (reg : StatusObj)
    (h1 : s0.conversion_status = some reg) (h2 : s0.conversion_processes = true) :
    lookupField (((cancel_task s0 true false false).state.conversion_status).getD [])
      "status" = some (.jstr "cancelled")
    ∧ lookupField ((cancelThenWorkerErrorTrace s0).conversion_status.getD [])
      "status" = some (.jstr "error")
    ∧ lookupField ((cancelThenWorkerErrorTrace s0).conversion_status.getD [])
      "error" = some (.jstr "PDF conversion failed: Task was cancelled by user") := by
  refine ⟨cancel_task_registry_status s0 reg true false false h1, ?_, ?_⟩ <;>
    cases s0 with
    | mk cs cp hb fe fc =>
        cases cs with
        | none => cases h1
        | some r =>
            cases h1
            cases cp with
            | false => cases h2
            | true =>
                simp [cancelThenWorkerErrorTrace, cancel_task, monitorProcessExit,
                  monitorFinalResolve, workerFailureHandler, update_status, read_status,
                  cancellationException, workerErrorFields, cancelIntentObj, dictUpdate,
                  setField, lookupField, exceptionMessage]

/-- Witness for C1's amended theorem at the sample running state. -/
theorem C1_worker_error_write_demotes_cancelled_witness :
    lookupField (((cancel_task sampleRunningState true false false).state.conversion_status).getD [])
      "status" = some (.jstr "cancelled")
    ∧ lookupField ((cancelThenWorkerErrorTrace sampleRunningState).conversion_status.getD [])
      "status" = some (.jstr "error")
    ∧ lookupField ((cancelThenWorkerErrorTrace sampleRunningState).conversion_status.getD [])
      "error" = some (.jstr "PDF conversion failed: Task was cancelled by user") :=
  C1_worker_error_write_demotes_cancelled sampleRunningState convertingObj rfl rfl

/-- C2, counterexample: a job already terminal (status "completed") is not
left unchanged by `cancel_task` — its status is overwritten to "cancelled"
and the response is `{status: cancelled}`, not the job's prior status. -/
theorem C2_cancel_terminal_not_noop_counterexample :
    lookupField (sampleCompletedState.conversion_status.getD []) "status" =
      some (.jstr "completed")
    ∧ (cancel_task sampleCompletedState true false false).state ≠ sampleCompletedState
    ∧ lookupField (((cancel_task sampleCompletedState true false false).state.conversion_status).getD [])
        "status" = some (.jstr "cancelled")
    ∧ (cancel_task sampleCompletedState true false false).response = .ok "cancelled"
    ∧ (cancel_task sampleCompletedState true false false).response ≠ .ok "completed" := by
  refine ⟨?_, ?_, ?_, ?_, ?_⟩ <;> decide

/-- C2, amended: `cancel_task` fails with NotFound and changes nothing when
the id is unknown to the registry; for any known job — terminal or not —
it unconditionally overwrites the record's status to "cancelled" and
returns `{status: cancelled}` rather than the job's prior status. -/
theorem C2_cancel_notfound_and_unconditional_overwrite (st : SupervisorState)
    (w a1 a2 : Bool) :
    (st.conversion_status = none →
      cancel_task st w a1 a2 = { state := st, actions := [], response := .notFound })
    ∧ ∀ reg, st.conversion_status = some reg →
        lookupField (((cancel_task st w a1 a2).state.conversion_status).getD [])
          "status" = some (.jstr "cancelled")
        ∧ (cancel_task st w a1 a2).response = .ok "cancelled" := by
  constructor
  · intro h
    simp [cancel_task, h]
  · intro reg h
    refine ⟨cancel_task_registry_status st reg w a1 a2 h, ?_⟩
    cases st with
    | mk cs cp hb fe fc =>
        cases cs with
        | none => cases h
        | some r => cases h; cases cp <;> simp [cancel_task]

/-- A task id the registry has never seen. -/
def sampleAbsentState : SupervisorState :=
  { conversion_status := none, conversion_processes := false,
    frontend_heartbeat := false, statusFileExists := false,
    statusFileContent := none }

/-- Witness for C2's amended theorem: the unknown-id branch on an absent
registry entry, and the known-job branch on the completed job. -/
theorem C2_cancel_notfound_and_unconditional_overwrite_witness :
    cancel_task sampleAbsentState true false false =
      { state := sampleAbsentState, actions := [], response := .notFound }
    ∧ lookupField (((cancel_task sampleCompletedState true false false).state.conversion_status).getD [])
        "status" = some (.jstr "cancelled")
    ∧ (cancel_task sampleCompletedState true false false).response = .ok "cancelled" :=
  ⟨(C2_cancel_notfound_and_unconditional_overwrite sampleAbsentState true false false).1 rfl,
   (C2_cancel_notfound_and_unconditional_overwrite sampleCompletedState true false false).2
     completedObj rfl⟩

/-- C3, counterexample: the Worker process exits with code 0 and the final
status-file read fails with only a non-terminal status recorded; the
Monitor leaves the registry entry as it was ("converting"), not resolved to
Error, contradicting the claim's zero-exit clause. -/
theorem C3_zero_exit_not_resolved_counterexample :
    (monitorProcessExit sampleRunningState .failure 0).conversion_status =
      some convertingObj
    ∧ lookupField ((monitorProcessExit sampleRunningState .failure 0).conversion_status.getD [])
        "status" = some (.jstr "converting")
    ∧ lookupField ((monitorProcessExit sampleRunningState .failure 0).conversion_status.getD [])
        "status" ≠ some (.jstr "error") := by
  refine ⟨?_, ?_, ?_⟩ <;> decide

/-- C3, amended: when the process exits, the Monitor's final read, on
success, mirrors the file contents into the registry whatever they are; on
failure with a non-zero exit code it resolves the job to Error with a
synthetic message citing the exit code; on failure with exit code zero it
leaves the registry entry unchanged (the job is not resolved to Error). -/
theorem C3_final_resolution_by_exit_code (reg : Option StatusObj) (obj : StatusObj)
    (rc : Int) :
    monitorFinalResolve reg (.success obj) rc = some obj
    ∧ (rc ≠ 0 →
        monitorFinalResolve reg .failure rc = some (processExitErrorObj rc)
        ∧ lookupField (processExitErrorObj rc) "status" = some (.jstr "error")
        ∧ lookupField (processExitErrorObj rc) "error" =
            some (.jstr ("Process exited with code " ++ toString rc)))
    ∧ monitorFinalResolve reg .failure 0 = reg := by
  refine ⟨rfl, ?_, by simp [monitorFinalResolve]⟩
  intro h
  exact ⟨by simp [monitorFinalResolve, h], by simp [processExitErrorObj, lookupField],
    by simp [processExitErrorObj, lookupField]⟩

/-- Witness for C3's amended theorem at exit code 1. -/
theorem C3_final_resolution_by_exit_code_witness :
    monitorFinalResolve (some convertingObj) (.success completedObj) 1 = some completedObj
    ∧ monitorFinalResolve (some convertingObj) .failure 1 = some (processExitErrorObj 1)
    ∧ lookupField (processExitErrorObj 1) "status" = some (.jstr "error")
    ∧ monitorFinalResolve (some convertingObj) .failure 0 = some convertingObj := by
  have h := C3_final_resolution_by_exit_code (some convertingObj) completedObj 1
  have h2 := h.2.1 (by decide)
  exact ⟨h.1, h2.1, h2.2.1, h.2.2⟩

/-- C4: for a known job with a live process entry, `cancel_task` performs
the escalation in program order — mark cancelled, write the intent record,
wait the first grace period, terminate only if the process is still alive,
then wait the second grace period and kill only if still alive — and
removes the process-handle entry regardless of outcome. -/
theorem C4_cancel_escalation_order (st : SupervisorState) (reg : StatusObj)
    (w a1 a2 : Bool) (h1 : st.conversion_status = some reg)
    (h2 : st.conversion_processes = true) :
    (cancel_task st w a1 a2).actions =
      [.markCancelled, .writeIntent, .waitGrace1] ++
        (if a1 then [CancelAction.terminate, CancelAction.waitGrace2] ++
          (if a2 then [CancelAction.kill] else []) else []) ++ [.releaseHandle]
    ∧ (cancel_task st w a1 a2).actions.getLast? = some .releaseHandle
    ∧ (CancelAction.terminate ∈ (cancel_task st w a1 a2).actions ↔ a1 = true)
    ∧ (CancelAction.kill ∈ (cancel_task st w a1 a2).actions ↔ a1 = true ∧ a2 = true)
    ∧ (cancel_task st w a1 a2).state.conversion_processes = false
    ∧ lookupField (((cancel_task st w a1 a2).state.conversion_status).getD [])
        "status" = some (.jstr "cancelled") := by
  refine ?_
  have hreg := cancel_task_registry_status st reg w a1 a2 h1
  cases st with
  | mk cs cp hb fe fc =>
      cases cs with
      | none => cases h1
      | some r =>
          cases h1
          cases cp with
          | false => cases h2
          | true =>
              refine ⟨?_, ?_, ?_, ?_, ?_, hreg⟩ <;>
                cases a1 <;> cases a2 <;> simp [cancel_task]

/-- Witness for C4 at the sample running state with a worker that survives
both grace periods, so the full escalation including the kill runs. -/
theorem C4_cancel_escalation_order_witness :
    (cancel_task sampleRunningState true true true).actions =
      [.markCancelled, .writeIntent, .waitGrace1, .terminate, .waitGrace2, .kill,
        .releaseHandle]
    ∧ (cancel_task sampleRunningState true true true).state.conversion_processes = false :=
  ⟨((C4_cancel_escalation_order sampleRunningState convertingObj true true true
      rfl rfl).1).trans (by decide),
   (C4_cancel_escalation_order sampleRunningState convertingObj true true true
      rfl rfl).2.2.2.2.1⟩

/-- C5, counterexample: after the Monitor handles process exit for the
sample running job, the process-handle entry and the backing file are gone
but the heartbeat entry is still present — the Monitor does not remove the
HeartbeatRecord, contradicting the claim. -/
theorem C5_heartbeat_not_removed_counterexample :
    (monitorProcessExit sampleRunningState (.success completedObj) 0).conversion_processes = false
    ∧ (monitorProcessExit sampleRunningState (.success completedObj) 0).statusFileExists = false
    ∧ (monitorProcessExit sampleRunningState (.success completedObj) 0).frontend_heartbeat = true := by
  refine ⟨?_, ?_, ?_⟩ <;> decide

/-- C5, amended: on observing process exit the Monitor removes the
process-handle entry and deletes the Status Channel's backing file, but it
leaves the HeartbeatRecord entry exactly as it was. -/
theorem C5_monitor_releases_handle_and_file_only (st : SupervisorState)
    (read : FileRead) (rc : Int) :
    (monitorProcessExit st read rc).conversion_processes = false
    ∧ (monitorProcessExit st read rc).statusFileExists = false
    ∧ (monitorProcessExit st read rc).frontend_heartbeat = st.frontend_heartbeat := by
  refine ⟨rfl, rfl, rfl⟩

/-- Helper: a string with a non-empty prefix is non-empty. -/
theorem prefix_append_ne_empty (a s : String) (h : a.length ≠ 0) : a ++ s ≠ "" := by
  intro hc
  have hlen := congrArg String.length hc
  simp [String.length_append] at hlen
  exact h hlen.1

/-- C6: a read/parse failure on a poll tick leaves the last successfully
parsed snapshot unchanged — the monitor loop's tick is the identity on the
registry entry, the next successful tick picks up the file as usual, and
`get_status` keeps and serves the cached entry — so a single bad read never
becomes a job failure. -/
theorem C6_transient_read_failure_keeps_snapshot (reg : Option StatusObj)
    (regObj obj : StatusObj) (b : Bool) :
    monitor_poll_tick reg .failure = reg
    ∧ monitor_poll_tick (monitor_poll_tick reg .failure) (.success obj) = some obj
    ∧ (get_status (some regObj) b .failure).1 = some regObj
    ∧ (get_status (some regObj) b .failure).2 = some regObj := by
  refine ⟨rfl, rfl, ?_, ?_⟩ <;> cases b <;> simp [get_status]

/-- C7: whatever exception ends a Worker run in failure, the worker's last
write to the Status Channel carries `status: "error"` together with the
exception text in the `error` field, that text is never empty, and the
worker removes any partial output artifact before exiting. -/
theorem C7_worker_failure_terminal_write (st : WorkerFsState) (e : WorkerException) :
    lookupField ((workerFailureHandler st e).statusFile.getD []) "status" =
      some (.jstr "error")
    ∧ lookupField ((workerFailureHandler st e).statusFile.getD []) "error" =
      some (.jstr (exceptionMessage e))
    ∧ exceptionMessage e ≠ ""
    ∧ (workerFailureHandler st e).outputExists = false := by
  have hobj : ∀ base : StatusObj,
      lookupField (dictUpdate base (workerErrorFields e)) "status" =
        some (.jstr "error")
      ∧ lookupField (dictUpdate base (workerErrorFields e)) "error" =
        some (.jstr (exceptionMessage e)) := by
    intro base
    constructor
    · simp only [workerErrorFields, dictUpdate, List.foldl]
      rw [lookupField_setField_ne _ _ _ _ (by decide),
        lookupField_setField_ne _ _ _ _ (by decide),
        lookupField_setField_ne _ _ _ _ (by decide),
        lookupField_setField_self]
    · simp only [workerErrorFields, dictUpdate, List.foldl]
      rw [lookupField_setField_self]
  refine ⟨(hobj _).1, (hobj _).2, ?_, rfl⟩
  cases e with
  | conversionFailed s => exact prefix_append_ne_empty _ s (by decide)
  | compatibilityFailed s => exact prefix_append_ne_empty _ s (by decide)
  | outputMissing => decide

/-- C8: when `subprocess.Popen` raises, the submission handler returns the
failure synchronously as an HTTP 500 `Failed to start conversion: ...`
response; no process handle is stored and no monitor is started, and since
`convert_pdf` never created a registry entry, a status poll for the id
answers 404 rather than ever reporting the launch failure. -/
theorem C8_launch_failure_synchronous (task_id msg : String) (b : Bool)
    (read : FileRead) :
    convert_pdf_launch task_id (.fail msg) =
      { response := .launchError ("Failed to start conversion: " ++ msg),
        httpCode := 500, processStored := false, monitorStarted := false }
    ∧ (convert_pdf_launch task_id (.fail msg)).response ≠ .started task_id
    ∧ get_status none b read = (none, none) := by
  exact ⟨rfl, by simp [convert_pdf_launch], rfl⟩

/-- C9: each worker write merges into the existing status object — every
field of the existing object whose key is not mentioned in the written data
is looked up unchanged in the merged result. -/
theorem C9_update_status_preserves_unmentioned_fields (obj data : StatusObj)
    (k : String) (h : k ∉ data.map Prod.fst) :
    lookupField ((update_status (some obj) data).getD []) k = lookupField obj k := by
  simpa [update_status, read_status] using lookupField_dictUpdate_not_mem obj data k h

/-- Witness for C9: a progress write leaves the untouched "status" field of
the channel unchanged. -/
theorem C9_update_status_preserves_unmentioned_fields_witness :
    "status" ∉ ([("progress", JVal.jint 5), ("message", JVal.jstr "File uploaded successfully"),
        ("step", JVal.jstr "upload_complete")].map Prod.fst)
    ∧ lookupField ((update_status (some convertingObj)
        [("progress", JVal.jint 5), ("message", JVal.jstr "File uploaded successfully"),
          ("step", JVal.jstr "upload_complete")]).getD []) "status" =
      lookupField convertingObj "status" :=
  ⟨by decide,
   C9_update_status_preserves_unmentioned_fields convertingObj
     [("progress", JVal.jint 5), ("message", JVal.jstr "File uploaded successfully"),
       ("step", JVal.jstr "upload_complete")] "status" (by decide)⟩

/-- C10: the ETA computation is division-guarded — a current page count
that is zero or negative short-circuits to the empty string, and in the
remaining branch the sole division is by the current page count, which is
then provably non-zero. -/
theorem C10_eta_division_guarded (elapsed : ℚ) (current_page total_pages : Int) :
    (current_page ≤ 0 → calculate_eta elapsed current_page total_pages = "")
    ∧ (0 < current_page →
        (current_page : ℚ) ≠ 0
        ∧ calculate_eta elapsed current_page total_pages =
            "预计剩余时间: " ++ toString (ratTruncToInt
              (elapsed / (current_page : ℚ) * ((total_pages - current_page : Int) : ℚ))) ++ "秒") := by
  constructor
  · intro h
    simp [calculate_eta, h]
  · intro h
    refine ⟨?_, ?_⟩
    · exact_mod_cast h.ne'
    · simp [calculate_eta, not_le.mpr h]

/-- Witness for C10: zero pages yield the empty string; two of six pages
after ten seconds yield a concrete twenty-second estimate. -/
theorem C10_eta_division_guarded_witness :
    calculate_eta 10 0 5 = ""
    ∧ calculate_eta 10 2 6 =
        "预计剩余时间: " ++ toString (ratTruncToInt ((10 : ℚ) / ((2 : Int) : ℚ) *
          (((6 - 2 : Int)) : ℚ))) ++ "秒" :=
  ⟨(C10_eta_division_guarded 10 0 5).1 (by decide),
   ((C10_eta_division_guarded 10 2 6).2 (by decide)).2⟩
